import Mathlib

/-!
Verification development for the GitLab phased-orchestration pipeline of the
claude-ai repository (`src/entrypoints/update-comment-gitlab.ts` and
`src/providers/provider-factory.ts`).

The TypeScript source is shallowly embedded: each function that a claim
depends on is translated into an executable Lean definition over explicit
environment records.  Subprocess invocations (git commands, the assistant
run, the nested update script) are modelled by the `(exitCode, stdout,
stderr)`-style outcome fields that the source itself inspects; the
filesystem is modelled as an association list from paths to parsed file
contents.  JavaScript string operations (`includes`, `endsWith`, `trim`,
`split`, `substring`) are modelled by structurally recursive functions on
`List Char` so that every definition evaluates inside the kernel.
-/

namespace ClaudeAI

/-! ## JavaScript string primitives -/

/-- Model of `needle` being a contiguous substring of `hay`
(JavaScript `hay.includes(needle)`). -/
def containsSub (hay needle : List Char) : Bool :=
  match hay with
  | [] => needle.isEmpty
  | _ :: t => needle.isPrefixOf hay || containsSub t needle

/-- JavaScript `s.includes(sub)`. -/
def jsIncludes (s sub : String) : Bool :=
  containsSub s.toList sub.toList

/-- JavaScript `s.endsWith(suf)`. -/
def jsEndsWith (s suf : String) : Bool :=
  suf.toList.reverse.isPrefixOf s.toList.reverse

/-- Whitespace characters trimmed by the model of JavaScript `trim`
(the source only ever trims spaces, tabs, carriage returns and newlines). -/
def isWs (c : Char) : Bool :=
  c = ' ' || c = '\t' || c = '\n' || c = '\r'

/-- JavaScript `s.trim()` restricted to the whitespace above. -/
def jsTrim (s : String) : String :=
  String.mk (((s.toList.dropWhile isWs).reverse.dropWhile isWs).reverse)

/-- Split a character list at every occurrence of `c`
(JavaScript `split` keeps empty fragments, including a trailing one). -/
def splitListOn (c : Char) : List Char → List (List Char)
  | [] => [[]]
  | x :: xs =>
    let r := splitListOn c xs
    if x = c then [] :: r
    else
      match r with
      | [] => [[x]]
      | h :: t => (x :: h) :: t

/-- JavaScript `s.split("\n")`. -/
def splitNewlines (s : String) : List String :=
  (splitListOn '\n' s.toList).map String.mk

/-- JavaScript `s.substring (n)` (drop the first `n` characters). -/
def jsSubstringFrom (s : String) (n : Nat) : String :=
  String.mk (s.toList.drop n)

/-! ## JavaScript numbers produced by `parseInt` -/

/-- Result of JavaScript `parseInt`: either `NaN` or an integer. -/
inductive JsNumber
  | nan
  | int (n : Int)
deriving DecidableEq, Repr

/-- JavaScript truthiness of an optional number: `undefined`, `NaN`
and `0` are all falsy. -/
def jsNumberTruthy : Option JsNumber → Bool
  | none => false
  | some JsNumber.nan => false
  | some (JsNumber.int n) => n != 0

/-- Decimal value of a digit list (most significant first). -/
def digitsToNat (l : List Char) : Nat :=
  l.foldl (fun a c => a * 10 + (c.toNat - 48)) 0

/-- JavaScript `parseInt(s)` in base 10: skip surrounding whitespace,
read an optional sign and then the maximal leading run of digits;
no digits at all gives `NaN`. -/
def parseIntJs (s : String) : JsNumber :=
  let t := (jsTrim s).toList
  let (sign, rest) :=
    match t with
    | '-' :: r => ((-1 : Int), r)
    | '+' :: r => ((1 : Int), r)
    | r => ((1 : Int), r)
  let digits := rest.takeWhile Char.isDigit
  if digits.isEmpty then JsNumber.nan
  else JsNumber.int (sign * (digitsToNat digits : Int))

/-! ## `toFixed` formatting

`toFixedFrac a b n` renders the rational value `a / b` (with `b > 0`)
with exactly `n` decimal digits, following the ECMAScript `toFixed`
rounding rule: the integer `m` closest to `(a/b) * 10^n`, ties resolved
upward.  For `b > 0` that integer is `⌊(a/b) * 10^n + 1/2⌋`, computed
below purely with integer Euclidean division (the string rendering
models the nonnegative values that occur in the program). -/

/-- Left-pad a string with zeros to length `n`. -/
def padZeros (n : Nat) (s : String) : String :=
  if s.length ≥ n then s
  else String.mk (List.replicate (n - s.length) '0') ++ s

/-- ECMAScript `(a / b).toFixed (n)` for `b > 0`. -/
def toFixedFrac (a b : Int) (n : Nat) : String :=
  let p : Int := (10 : Int) ^ n
  let m : Int := Int.ediv (2 * a * p + b) (2 * b)
  if n = 0 then toString m
  else
    let ip := Int.ediv m p
    let fp := (Int.emod m p).natAbs
    toString ip ++ "." ++ padZeros n (toString fp)

/-- JavaScript `q.toFixed (n)` for a rational `q`. -/
def ratToFixed (q : ℚ) (n : Nat) : String :=
  toFixedFrac q.num (q.den : Int) n

/-! ## Transcript data model

One line of the assistant transcript, as seen by the line-by-line
parsing loops of `getExecutionDetails` and `postClaudeResponse`:
a line is blank (its `trim` is empty, skipped before parsing), or
`JSON.parse` fails on it (malformed, the raw text is kept for the
plain-text heuristic), or it parses to one SDK record. -/

/-- One entry of an assistant message `content` array. -/
inductive ContentItem
  | text (s : String)
  | nonText
deriving DecidableEq, Repr

/-- Fields of a record tagged `"type": "result"`.  Every field is
optional: JSON objects may omit any of them. -/
structure ResultRecord where
  result : Option String
  cost_usd : Option ℚ
  duration_ms : Option ℚ
deriving DecidableEq, Repr

/-- A parsed SDK record, discriminated on its `type` tag. -/
inductive SDKRecord
  | result (r : ResultRecord)
  | assistant (content : Option (List ContentItem))
  | otherType
deriving DecidableEq, Repr

/-- One raw line of a JSONL transcript file. -/
inductive TranscriptLine
  | blank
  | malformed (raw : String)
  | record (v : SDKRecord)
deriving DecidableEq, Repr

/-- The JSONL branch of `getExecutionDetails` (source lines 62-73):
iterate over the lines, skip blank lines, push each successfully
parsed object, and skip lines whose parse fails. -/
def parseJSONL : List TranscriptLine → List SDKRecord
  | [] => []
  | TranscriptLine.blank :: ls => parseJSONL ls
  | TranscriptLine.malformed _ :: ls => parseJSONL ls
  | TranscriptLine.record v :: ls => v :: parseJSONL ls

/-- Outcome of `JSON.parse` applied to a whole transcript file:
a JSON array of records, some other JSON value (on which the
subsequent `.find` call throws, caught by the outer handler), or a
parse failure that routes to the line-by-line JSONL branch. -/
inductive FileParse
  | array (records : List SDKRecord)
  | nonArrayJson
  | notJson (lines : List TranscriptLine)
deriving DecidableEq, Repr

/-- Content of an existing file: the empty string (falsy, treated as
not found by the readers) or nonempty content together with its
`JSON.parse` outcome. -/
inductive FileContent
  | empty
  | content (p : FileParse)
deriving DecidableEq, Repr

/-- The filesystem visible to the readers: an association list from
paths to contents.  `existsSync` is membership; reading an existing
file returns its content. -/
structure FS where
  files : List (String × FileContent)
deriving DecidableEq, Repr

/-- Model of `fs.existsSync`. -/
def FS.pathExists (fs : FS) (p : String) : Bool :=
  (fs.files.find? (fun e => e.1 == p)).isSome

/-- Model of `existsSync` followed by `readFile`. -/
def FS.read (fs : FS) (p : String) : Option FileContent :=
  (fs.files.find? (fun e => e.1 == p)).map (·.2)

/-- First candidate path that exists, together with its content
(the `for … break` loops of both readers). -/
def firstExistingContent (fs : FS) : List String → Option (String × FileContent)
  | [] => none
  | p :: ps =>
    match fs.read p with
    | some c => some (p, c)
    | none => firstExistingContent fs ps

/-- First candidate path that exists (path only). -/
def firstExistingFile (fs : FS) (cands : List String) : Option String :=
  (firstExistingContent fs cands).map (·.1)

/-- `outputData.find((msg) => msg.type === "result")`. -/
def findResultRecord (recs : List SDKRecord) : Option ResultRecord :=
  recs.findSome? fun r =>
    match r with
    | SDKRecord.result rr => some rr
    | _ => none

/-- Extraction of `{cost_usd, duration_ms}` from a parsed transcript
(source lines 57-92): a whole-file JSON array is used as is; other
JSON values make the `.find` call throw, which the catch converts to
`null`; a parse failure falls back to line-by-line JSONL parsing.
Both fields must be present on the first `result` record. -/
def executionDetailsOfParse (p : FileParse) : Option (ℚ × ℚ) :=
  let recs : Option (List SDKRecord) :=
    match p with
    | FileParse.array rs => some rs
    | FileParse.nonArrayJson => none
    | FileParse.notJson lines => some (parseJSONL lines)
  match recs with
  | none => none
  | some rs =>
    match findResultRecord rs with
    | none => none
    | some rr =>
      match rr.cost_usd, rr.duration_ms with
      | some c, some d => some (c, d)
      | _, _ => none

/-- Candidate list of `getExecutionDetails` when an explicit override
path was provided (source lines 28-32). -/
def execDetailsCandidates (override tempDir : String) : List String :=
  [override,
   tempDir ++ "/claude-execution-output.json",
   tempDir ++ "/output.txt"]

/-- What the reader makes of a found file: empty content (falsy) is
reported as not found, otherwise the parsed content is mined for the
first `result` record. -/
def contentDetails : FileContent → Option (ℚ × ℚ)
  | FileContent.empty => none
  | FileContent.content p => executionDetailsOfParse p

/-- `getExecutionDetails` (source lines 13-92).  With no override path
(`OUTPUT_FILE` unset or empty) it returns `null` at once — the
well-known temp files are not tried.  Otherwise the first existing
candidate wins. -/
def getExecutionDetails (override : Option String) (tempDir : String)
    (fs : FS) : Option (ℚ × ℚ) :=
  match override with
  | none => none
  | some f =>
    match firstExistingContent fs (execDetailsCandidates f tempDir) with
    | none => none
    | some (_, c) => contentDetails c

/-- Text accumulated from one assistant record: every `content` entry
of type `text` contributes its text followed by a newline
(source lines 911-916). -/
def assistantText (items : List ContentItem) : String :=
  items.foldl
    (fun acc it =>
      match it with
      | ContentItem.text s => acc ++ s ++ "\n"
      | ContentItem.nonText => acc)
    ""

/-- The message-extraction loop of `postClaudeResponse`
(source lines 896-930), carrying the current `claudeMessage`
accumulator.  A `result` record with a truthy `result` field wins and
stops the loop; an assistant record with nonempty text overwrites the
accumulator but does not stop; a malformed line longer than 50
characters (after trimming) is adopted only while the accumulator is
still empty. -/
def extractLoop : List TranscriptLine → String → String
  | [], acc => acc
  | l :: ls, acc =>
    match l with
    | TranscriptLine.blank => extractLoop ls acc
    | TranscriptLine.record (SDKRecord.result rr) =>
      match rr.result with
      | some s => if s ≠ "" then s else extractLoop ls acc
      | none => extractLoop ls acc
    | TranscriptLine.record (SDKRecord.assistant content) =>
      match content with
      | some items =>
        let tmp := assistantText items
        if tmp ≠ "" then extractLoop ls (jsTrim tmp) else extractLoop ls acc
      | none => extractLoop ls acc
    | TranscriptLine.record SDKRecord.otherType => extractLoop ls acc
    | TranscriptLine.malformed raw =>
      if acc = "" && (jsTrim raw).length > 50 then extractLoop ls (jsTrim raw)
      else extractLoop ls acc

/-- The conversational message `postClaudeResponse` extracts from a
transcript, `""` meaning "no message found". -/
def extractClaudeMessage (lines : List TranscriptLine) : String :=
  extractLoop lines ""

/-- Candidate list of `postClaudeResponse` (source lines 860-865):
the execute-phase output file if set, the well-known JSON file, the
well-known JSONL file, and the library fallback path, with absent
entries removed by `.filter(Boolean)`. -/
def posterCandidates (override : Option String) (tempDir fallback : String) :
    List String :=
  (match override with
   | some f => [f]
   | none => []) ++
  [tempDir ++ "/claude-execution-output.json",
   tempDir ++ "/output.txt",
   fallback]

/-- The cost/duration footer appended by `formatGitLabCommentBody`
(source lines 125-131): nothing when no details object is present;
otherwise the duration is divided by 1000 and shown with two decimals
(a missing duration counts as 0) and the cost with four decimals
(a missing cost renders as `0.0000`). -/
def executionFooter : Option (Option ℚ × Option ℚ) → String
  | none => ""
  | some (c, d) =>
    let dm : ℚ := d.getD 0
    let durationStr := toFixedFrac dm.num (1000 * (dm.den : Int)) 2
    let costStr :=
      match c with
      | some cv => ratToFixed cv 4
      | none => "0.0000"
    "\n\n---\n*Execution time: " ++ durationStr ++ "s | Estimated cost: $" ++
      costStr ++ "*"

/-! ## Phase results (source lines 288-293) -/

/-- The record every phase produces and forwards. -/
structure PhaseResult where
  success : Bool
  error : Option String := none
  commentId : Option JsNumber := none
  outputFile : Option String := none
deriving DecidableEq, Repr

/-! ## Prepare phase (source lines 295-355) -/

/-- Environment of `runPreparePhase`: the outcome of the spawned
`prepare.ts` subprocess and the persisted comment-id file. -/
structure PrepareEnv where
  exitZero : Bool
  stdoutHasNoTrigger : Bool
  stderr : String
  commentIdFile : Option String
deriving DecidableEq, Repr

/-- Reading the comment id back from `/tmp/claude-comment-id.txt`
(source lines 329-342): a missing file or an empty trimmed content
leaves the id unset, anything else goes through `parseInt`. -/
def readCommentId : Option String → Option JsNumber
  | none => none
  | some content =>
    let s := jsTrim content
    if s = "" then none else some (parseIntJs s)

/-- `runPreparePhase` (source lines 295-355): a failing subprocess is a
phase failure carrying its stderr (or a default message); an exit-0 run
whose stdout contains `No trigger found` is the no-trigger failure; a
successful run extracts the persisted comment id. -/
def runPreparePhase (env : PrepareEnv) : PhaseResult :=
  if !env.exitZero then
    { success := false,
      error := some (if env.stderr = "" then "Prepare step failed" else env.stderr) }
  else if env.stdoutHasNoTrigger then
    { success := false, error := some "No trigger found" }
  else
    { success := true, commentId := readCommentId env.commentIdFile }

/-! ## Git state and the branch reconciler (source lines 366-404)

Git is modelled as the branch-level state the reconciler touches:
the currently checked-out branch and the sets of local and remote
branches.  The three commands the reconciler issues are given their
documented semantics:

* `git fetch origin B:B` refuses to update the currently checked-out
  branch of a non-bare repository (git-fetch(1), `--update-head-ok`),
  and fails when the remote has no branch `B`; on success the local
  ref `B` exists.
* `git checkout B` succeeds exactly when the local branch exists.
* `git checkout -b B` fails exactly when the local branch already
  exists. -/

/-- Branch-level git state. -/
structure GitState where
  currentBranch : String
  localBranches : List String
  remoteBranches : List String
deriving DecidableEq, Repr

/-- `git fetch origin b:b` (see the semantics above). -/
def gitFetchBranch (s : GitState) (b : String) : Option GitState :=
  if b = s.currentBranch then none
  else if s.remoteBranches.contains b then
    some { s with localBranches :=
      if s.localBranches.contains b then s.localBranches else b :: s.localBranches }
  else none

/-- `git checkout b`. -/
def gitCheckout (s : GitState) (b : String) : Option GitState :=
  if s.localBranches.contains b then some { s with currentBranch := b } else none

/-- `git checkout -b b`. -/
def gitCheckoutNew (s : GitState) (b : String) : Option GitState :=
  if s.localBranches.contains b then none
  else some { s with currentBranch := b, localBranches := b :: s.localBranches }

/-- The try/catch block of the branch setup (source lines 377-392):
try fetch-then-checkout; on any failure fall back to
`git checkout -b`, whose own failure is fatal. -/
def setupBranch (s : GitState) (b : String) : Except String GitState :=
  match gitFetchBranch s b with
  | some s1 =>
    match gitCheckout s1 b with
    | some s2 => Except.ok s2
    | none =>
      match gitCheckoutNew s1 b with
      | some s2 => Except.ok s2
      | none => Except.error "Failed to setup working branch"
  | none =>
    match gitCheckoutNew s b with
    | some s2 => Except.ok s2
    | none => Except.error "Failed to setup working branch"

/-- The post-condition check of the branch setup (source lines
394-401): read `git rev-parse --abbrev-ref HEAD` and compare with the
target branch, a mismatch being fatal. -/
def verifyBranch (b : String) : Except String GitState → Except String GitState
  | Except.error e => Except.error e
  | Except.ok s2 =>
    if s2.currentBranch = b then Except.ok s2
    else Except.error ("Branch checkout failed: expected " ++ b ++ ", got " ++
      s2.currentBranch)

/-- The whole branch-reconciliation step of `runExecutePhase`
(source lines 366-404). -/
def reconcileBranch (s : GitState) (b : String) : Except String GitState :=
  verifyBranch b (setupBranch s b)

/-! ## Execute phase (source lines 357-536) -/

/-- Environment of `runExecutePhase`: the configured branch and project
directory, the starting git state, the outcomes of the install steps and
of the assistant run, and which output artifacts exist afterwards. -/
structure ExecuteEnv where
  claudeBranch : Option String
  projectDir : Option String
  git : GitState
  installClaudeOk : Bool
  installDepsOk : Bool
  executeExitZero : Bool
  tempDir : String
  fs : FS
deriving DecidableEq, Repr

/-- The output-file selection of the execute phase (source line 519):
`jsonExists ? outputFile : (txtExists ? outputTxtFile : outputFile)`. -/
def executeOutputFileSelection (jsonExists txtExists : Bool) (tempDir : String) :
    String :=
  if jsonExists then tempDir ++ "/claude-execution-output.json"
  else if txtExists then tempDir ++ "/output.txt"
  else tempDir ++ "/claude-execution-output.json"

/-- `runExecutePhase` (source lines 357-536).  Branch reconciliation
runs only when both `CLAUDE_BRANCH` and `CI_PROJECT_DIR` are set; its
error, like every other thrown error, is caught and turned into a
failed `PhaseResult` that still forwards the prepare phase comment id.
On reaching the assistant run, success mirrors its exit code and the
selected output file is attached. -/
def runExecutePhase (prep : PhaseResult) (env : ExecuteEnv) : PhaseResult :=
  let branchError : Option String :=
    match env.claudeBranch, env.projectDir with
    | some b, some _ =>
      match reconcileBranch env.git b with
      | Except.ok _ => none
      | Except.error e => some e
    | _, _ => none
  match branchError with
  | some e => { success := false, error := some e, commentId := prep.commentId }
  | none =>
    if !env.installClaudeOk then
      { success := false, error := some "Failed to install Claude Code",
        commentId := prep.commentId }
    else if !env.installDepsOk then
      { success := false, error := some "Failed to install base-action dependencies",
        commentId := prep.commentId }
    else
      let jsonExists := env.fs.pathExists (env.tempDir ++ "/claude-execution-output.json")
      let txtExists := env.fs.pathExists (env.tempDir ++ "/output.txt")
      { success := env.executeExitZero,
        error := if env.executeExitZero then none else some "Claude execution failed",
        commentId := prep.commentId,
        outputFile := some (executeOutputFileSelection jsonExists txtExists env.tempDir) }

/-! ## Change classifier (source lines 551-653) -/

/-- Environment of `checkGitStatus`: the project directory variable,
the result of `git remote get-url origin` (`none` when the command
throws), the expected project path, and the porcelain status output
observed after the temp-file cleanup pass. -/
structure StatusEnv where
  projectDir : Option String
  remoteUrl : Option String
  expectedProject : Option String
  statusOutput : String
deriving DecidableEq, Repr

/-- The defensive per-line filter of `checkGitStatus`
(source lines 627-635): keep a status line when the path after the
three-character status prefix contains none of `/tmp/`, `.claude`,
`node_modules/.cache` and ends in neither `.log` nor `.tmp`. -/
def statusLineSubstantive (line : String) : Bool :=
  let file := jsTrim (jsSubstringFrom line 3)
  !(jsIncludes file "/tmp/") &&
  !(jsIncludes file ".claude") &&
  !(jsEndsWith file ".log") &&
  !(jsEndsWith file ".tmp") &&
  !(jsIncludes file "node_modules/.cache")

/-- `checkGitStatus` (source lines 551-653): `false` when the project
directory is unset, when reading the remote URL fails, or when the
remote URL does not contain the expected project path (the mismatch is
only logged); otherwise the post-cleanup status is split into lines,
the defensive filter is applied, and the result says whether any line
survives. -/
def checkGitStatus (env : StatusEnv) : Bool :=
  match env.projectDir with
  | none => false
  | some _ =>
    match env.remoteUrl with
    | none => false
    | some url =>
      let mismatch :=
        match env.expectedProject with
        | some p => !(jsIncludes url p)
        | none => false
      if mismatch then false
      else
        let changes := jsTrim env.statusOutput
        if changes = "" then false
        else !((splitNewlines changes).filter statusLineSubstantive).isEmpty

/-! ## Change submitter (source lines 655-844) -/

/-- Environment of `createMergeRequest`: the identity checks, the
branch inputs, the two status inspections it performs (before `git
add -A`, and `git status --short` after the noise unstaging), and the
outcomes of the commit and push subprocesses. -/
structure SubmitEnv where
  projectDir : Option String
  remoteUrl : Option String
  expectedProject : Option String
  currentBranch : String
  sourceBranchName : Option String
  derivedBranchName : String
  checkoutNewOk : Bool
  statusBefore : String
  statusAfterFilter : String
  commitOk : Bool
  pushOk : Bool
deriving DecidableEq, Repr

/-- The `validFiles` per-line filter of `createMergeRequest`
(source lines 765-771): like the classifier filter but without the
`node_modules/.cache` clause. -/
def validFileLine (line : String) : Bool :=
  let file := jsTrim (jsSubstringFrom line 3)
  !(jsIncludes file "/tmp/") &&
  !(jsIncludes file ".claude") &&
  !(jsEndsWith file ".log") &&
  !(jsEndsWith file ".tmp")

/-- How a `createMergeRequest` call ended: an early return with
nothing to commit (not an error), full success, or a thrown error
that propagates to the caller. -/
inductive SubmitOutcome
  | noop (reason : String)
  | success
  | fatal (err : String)
deriving DecidableEq, Repr

/-- A `createMergeRequest` run: its outcome plus whether the
`git commit` and `git push` subprocesses were ever invoked. -/
structure SubmitRun where
  outcome : SubmitOutcome
  reachedCommit : Bool
  reachedPush : Bool
deriving DecidableEq, Repr

/-- `createMergeRequest` (source lines 655-844).  Fatal checks first:
missing project directory, failing `git remote get-url`, and a remote
URL not containing the expected project path all throw.  The branch is
created with `git checkout -b` only when not already on it, and that
command throwing is fatal.  An empty pre-add status returns early; so
does an empty post-filter `git status --short`, and so does a
post-filter status whose every line fails the `validFiles` filter.
Otherwise `git commit` runs (its failure throws), then `git push`
(its failure throws). -/
def createMergeRequest (env : SubmitEnv) : SubmitRun :=
  match env.projectDir with
  | none => ⟨SubmitOutcome.fatal "CI_PROJECT_DIR is not set", false, false⟩
  | some _ =>
    match env.remoteUrl with
    | none => ⟨SubmitOutcome.fatal "git remote get-url origin failed", false, false⟩
    | some url =>
      let mismatch :=
        match env.expectedProject with
        | some p => !(jsIncludes url p)
        | none => false
      if mismatch then
        ⟨SubmitOutcome.fatal ("Wrong repository: " ++ url), false, false⟩
      else
        let branchName := env.sourceBranchName.getD env.derivedBranchName
        if env.currentBranch ≠ branchName && !env.checkoutNewOk then
          ⟨SubmitOutcome.fatal "git checkout -b failed", false, false⟩
        else if jsTrim env.statusBefore = "" then
          ⟨SubmitOutcome.noop "No changes to commit", false, false⟩
        else if jsTrim env.statusAfterFilter = "" then
          ⟨SubmitOutcome.noop "No valid changes to commit after filtering temp files",
            false, false⟩
        else if ((splitNewlines (jsTrim env.statusAfterFilter)).filter
            validFileLine).isEmpty then
          ⟨SubmitOutcome.noop "No valid project files to commit", false, false⟩
        else if !env.commitOk then
          ⟨SubmitOutcome.fatal "git commit failed", true, false⟩
        else if !env.pushOk then
          ⟨SubmitOutcome.fatal "git push failed", true, true⟩
        else
          ⟨SubmitOutcome.success, true, true⟩

/-- A porcelain status line records a staged change exactly when its
first character is neither a space nor `?` (untracked). -/
def lineIsStaged (line : String) : Bool :=
  match line.toList with
  | c :: _ => !(c = ' ' || c = '?')
  | [] => false

/-- The staged set described by a status output is empty: no line
carries a staged-change marker. -/
def stagedSetEmpty (status : String) : Bool :=
  let s := jsTrim status
  if s = "" then true
  else ((splitNewlines s).filter lineIsStaged).isEmpty

/-! ## Update phase (source lines 960-1075) -/

/-- Environment of `runUpdatePhase`: the classifier and submitter
environments, the filesystem and temp directory used for the fallback
output-file selection, and the exit status of the spawned
update-comment script. -/
structure UpdateEnv where
  status : StatusEnv
  submit : SubmitEnv
  tempDir : String
  fs : FS
  updateScriptExitZero : Bool
deriving DecidableEq, Repr

/-- Which steps a `runUpdatePhase` call performed. -/
structure UpdateTrace where
  ranSubmitter : Bool
  ranPoster : Bool
  updateScriptInvoked : Bool
  outputFileForUpdate : Option String
deriving DecidableEq, Repr

/-- The fallback output-file selection of the update phase
(source lines 992-1005): use the execute-phase file if present, else
prefer the JSON file, else the JSONL file, else default to the JSON
path even though it does not exist. -/
def updateOutputFileSelection (execOutputFile : Option String)
    (tempDir : String) (fs : FS) : String :=
  match execOutputFile with
  | some f => f
  | none =>
    if fs.pathExists (tempDir ++ "/claude-execution-output.json") then
      tempDir ++ "/claude-execution-output.json"
    else if fs.pathExists (tempDir ++ "/output.txt") then
      tempDir ++ "/output.txt"
    else tempDir ++ "/claude-execution-output.json"

/-- `runUpdatePhase` (source lines 960-1075).  The classifier picks the
route: on changes the submitter runs and a thrown submitter error is
caught by the phase handler as a failed result; otherwise the response
poster runs (it never throws).  Then a falsy comment id returns
`{success := true}` without invoking the update script; with a comment
id the output file is resolved and the update script spawned, a
non-zero exit producing the non-critical failure result. -/
def runUpdatePhase (prep exec : PhaseResult) (env : UpdateEnv) :
    PhaseResult × UpdateTrace :=
  let hasChanges := checkGitStatus env.status
  let routing : Option (PhaseResult × UpdateTrace) :=
    if hasChanges then
      match (createMergeRequest env.submit).outcome with
      | SubmitOutcome.fatal e =>
        some ({ success := false, error := some e }, ⟨true, false, false, none⟩)
      | _ => none
    else none
  match routing with
  | some r => r
  | none =>
    let ranSub := hasChanges
    let ranPost := !hasChanges
    if !(jsNumberTruthy prep.commentId) then
      ({ success := true }, ⟨ranSub, ranPost, false, none⟩)
    else
      let outputFile := updateOutputFileSelection exec.outputFile env.tempDir env.fs
      if env.updateScriptExitZero then
        ({ success := true }, ⟨ranSub, ranPost, true, some outputFile⟩)
      else
        ({ success := false, error := some "Failed to update comment (non-critical)" },
          ⟨ranSub, ranPost, true, some outputFile⟩)

/-! ## Orchestrator (source lines 1077-1129) -/

/-- Environment of one whole `main` run. -/
structure SystemEnv where
  prepare : PrepareEnv
  execute : ExecuteEnv
  update : UpdateEnv
deriving DecidableEq, Repr

/-- Observable outcome of a `main` run. -/
structure MainOutcome where
  exitCode : Nat
  ranExecute : Bool
  ranUpdate : Bool
deriving DecidableEq, Repr

/-- `main` (source lines 1077-1129).  Prepare runs first; a no-trigger
result exits 0 at once, any other prepare failure throws into the
catch block, which attempts an emergency update only when a comment id
was already obtained and exits 1.  Otherwise execute runs (its failure
sets exit code 1 but does not stop the flow), then update always runs
and its result never affects the exit code. -/
def mainRun (env : SystemEnv) : MainOutcome :=
  let prep := runPreparePhase env.prepare
  if prep.success then
    let exec := runExecutePhase prep env.execute
    let _update := runUpdatePhase prep exec env.update
    { exitCode := if exec.success then 0 else 1,
      ranExecute := true, ranUpdate := true }
  else if prep.error = some "No trigger found" then
    { exitCode := 0, ranExecute := false, ranUpdate := false }
  else if jsNumberTruthy prep.commentId then
    let _update := runUpdatePhase prep { success := false } env.update
    { exitCode := 1, ranExecute := false, ranUpdate := true }
  else
    { exitCode := 1, ranExecute := false, ranUpdate := false }

/-! ## Concrete instances used by the scenario theorems and witnesses -/

/-- The JSON number `0.02` as an exact rational. -/
def cost002 : ℚ := ⟨1, 50, by decide, by decide⟩

/-- The JSON number `1500` as an exact rational. -/
def dur1500 : ℚ := ⟨1500, 1, by decide, by decide⟩

/-- The parsed form of the line
`\x7b"type":"result","result":"Done.","cost_usd":0.02,"duration_ms":1500\x7d`. -/
def rrDone : ResultRecord :=
  { result := some "Done.", cost_usd := some cost002, duration_ms := some dur1500 }

/-- The two-line transcript of the C7 scenario: the `result` line above
followed by an `assistant` line whose only text block is `ignored`. -/
def c7lines : List TranscriptLine :=
  [TranscriptLine.record (SDKRecord.result rrDone),
   TranscriptLine.record (SDKRecord.assistant (some [ContentItem.text "ignored"]))]

/-- A filesystem holding only the well-known JSON output file, with a
decodable `result` record inside. -/
def fsWellKnown : FS :=
  ⟨[("/tmp/claude-execution-output.json",
     FileContent.content (FileParse.array [SDKRecord.result rrDone]))]⟩

/-- A filesystem where the C7 transcript sits in the well-known JSONL
file and the whole-file `JSON.parse` fails (two objects on two lines). -/
def fsC7 : FS :=
  ⟨[("/tmp/output.txt", FileContent.content (FileParse.notJson c7lines))]⟩

/-- A filesystem holding both well-known output files. -/
def fsBoth : FS :=
  ⟨[("/tmp/claude-execution-output.json",
     FileContent.content (FileParse.array [SDKRecord.result rrDone])),
    ("/tmp/output.txt", FileContent.content (FileParse.notJson c7lines))]⟩

/-- The C2 failing input: a classifier environment whose post-cleanup
porcelain status consists exactly of `?? output.txt` and
`?? /tmp/claude-output/x.json`, in the right repository. -/
def c2Status : StatusEnv :=
  { projectDir := some "/builds/group/proj",
    remoteUrl := some "https://gitlab.com/group/proj.git",
    expectedProject := some "group/proj",
    statusOutput := "?? output.txt\n?? /tmp/claude-output/x.json" }

/-- A submitter environment matching the C2 failing input. -/
def c2Submit : SubmitEnv :=
  { projectDir := some "/builds/group/proj",
    remoteUrl := some "https://gitlab.com/group/proj.git",
    expectedProject := some "group/proj",
    currentBranch := "claude-issue-7-1700000000000",
    sourceBranchName := none,
    derivedBranchName := "claude-issue-7-1700000000000",
    checkoutNewOk := true,
    statusBefore := "?? output.txt",
    statusAfterFilter := "?? output.txt",
    commitOk := true,
    pushOk := true }

/-- The C2 update-phase environment. -/
def c2Update : UpdateEnv :=
  { status := c2Status, submit := c2Submit, tempDir := "/tmp",
    fs := ⟨[]⟩, updateScriptExitZero := true }

/-- A classifier environment in the right repository with a clean
working tree. -/
def idleStatus : StatusEnv :=
  { projectDir := some "/builds/group/proj",
    remoteUrl := some "https://gitlab.com/group/proj.git",
    expectedProject := some "group/proj",
    statusOutput := "" }

/-- A submitter environment in the right repository with a clean
working tree. -/
def idleSubmit : SubmitEnv :=
  { projectDir := some "/builds/group/proj",
    remoteUrl := some "https://gitlab.com/group/proj.git",
    expectedProject := some "group/proj",
    currentBranch := "main",
    sourceBranchName := none,
    derivedBranchName := "claude-issue-7-1700000000000",
    checkoutNewOk := true,
    statusBefore := "",
    statusAfterFilter := "",
    commitOk := true,
    pushOk := true }

/-- An update-phase environment with a clean tree and a working update
script. -/
def idleUpdate : UpdateEnv :=
  { status := idleStatus, submit := idleSubmit, tempDir := "/tmp",
    fs := ⟨[]⟩, updateScriptExitZero := true }

/-- The C4 failing input: a classifier environment whose remote URL
does not contain the expected project path although the working tree
has a real modification. -/
def c4Status : StatusEnv :=
  { projectDir := some "/builds/group/proj",
    remoteUrl := some "https://gitlab.com/other/unrelated.git",
    expectedProject := some "group/proj",
    statusOutput := "M  src/main.ts" }

/-- A submitter environment with the same repository-identity
mismatch. -/
def c4Submit : SubmitEnv :=
  { idleSubmit with
    remoteUrl := some "https://gitlab.com/other/unrelated.git",
    statusBefore := "M  src/main.ts",
    statusAfterFilter := "M  src/main.ts" }

/-- The C4 update-phase environment. -/
def c4Update : UpdateEnv :=
  { idleUpdate with status := c4Status }

/-- The C8 failing input: after staging and noise unstaging, the
re-inspected status is the single untracked line `?? output.txt` —
the staged set is empty, yet the line passes the `validFiles` filter.
`git commit` with an empty staged set exits non-zero. -/
def c8Submit : SubmitEnv :=
  { idleSubmit with
    currentBranch := "claude-issue-7-1700000000000",
    statusBefore := "?? output.txt",
    statusAfterFilter := "?? output.txt",
    commitOk := false }

/-- A submitter environment whose post-filter status holds only noise
lines (a log file and a temp file). -/
def c8NoopSubmit : SubmitEnv :=
  { idleSubmit with
    statusBefore := "?? app.log\n?? tool.tmp",
    statusAfterFilter := "?? app.log\n?? tool.tmp" }

/-- The C10 failing input: a substantive change is present and the
push step of the submitter fails, while no comment id exists. -/
def c10Submit : SubmitEnv :=
  { idleSubmit with
    currentBranch := "claude-issue-7-1700000000000",
    statusBefore := "M  src/app.ts",
    statusAfterFilter := "M  src/app.ts",
    pushOk := false }

/-- The C10 update-phase environment. -/
def c10Update : UpdateEnv :=
  { idleUpdate with
    status := { idleStatus with statusOutput := "M  src/app.ts" },
    submit := c10Submit }

/-- A prepare-phase environment that finds a trigger and persists the
comment id `123`. -/
def c1PrepEnv : PrepareEnv :=
  { exitZero := true, stdoutHasNoTrigger := false, stderr := "",
    commentIdFile := some "123" }

/-- An execute-phase environment with no configured branch whose
assistant run exits non-zero. -/
def c1ExecEnv : ExecuteEnv :=
  { claudeBranch := none, projectDir := some "/builds/group/proj",
    git := { currentBranch := "main", localBranches := ["main"],
             remoteBranches := ["main"] },
    installClaudeOk := true, installDepsOk := true,
    executeExitZero := false, tempDir := "/tmp", fs := ⟨[]⟩ }

/-- C1 scenario: prepare succeeds, the assistant run fails, the update
script itself also fails. -/
def c1Env : SystemEnv :=
  { prepare := c1PrepEnv, execute := c1ExecEnv,
    update := { idleUpdate with updateScriptExitZero := false } }

/-- C1 scenario: prepare succeeds, the assistant run succeeds, the
update script fails. -/
def c1OkEnv : SystemEnv :=
  { c1Env with execute := { c1ExecEnv with executeExitZero := true } }

/-- C1 scenario: the prepare subprocess reports `No trigger found`. -/
def c1TrigEnv : SystemEnv :=
  { c1Env with prepare := { c1PrepEnv with stdoutHasNoTrigger := true } }

end ClaudeAI

namespace ClaudeAI

/-! ## Claim theorems -/

theorem cost002_eq : cost002 = 1 / 50 := by
  rw [cost002, Rat.mk'_eq_divInt, Rat.divInt_eq_div]; norm_num

theorem dur1500_eq : dur1500 = 1500 := by
  rw [dur1500, Rat.mk'_eq_divInt, Rat.divInt_eq_div]; norm_num

theorem FS.read_of_pathExists (fs : FS) (p : String)
    (h : fs.pathExists p = true) : ∃ c, fs.read p = some c := by
  unfold FS.pathExists at h
  unfold FS.read
  cases hf : fs.files.find? (fun e => e.1 == p) with
  | none => rw [hf] at h; simp at h
  | some e => exact ⟨e.2, rfl⟩

/-- C9: for every transcript in which malformed lines are interleaved
with well-formed JSON lines, the line-by-line parse yields exactly the
well-formed records in order: removing a malformed line anywhere leaves
the parse of the surroundings intact, and a transcript of well-formed
records parses to precisely those records. -/
theorem C9_malformed_lines_skipped :
    (∀ (xs ys : List TranscriptLine) (raw : String),
      parseJSONL (xs ++ TranscriptLine.malformed raw :: ys) =
        parseJSONL xs ++ parseJSONL ys) ∧
    (∀ rs : List SDKRecord, parseJSONL (rs.map TranscriptLine.record) = rs) := by
  constructor
  · intro xs ys raw
    induction xs with
    | nil => rfl
    | cons x xs ih => cases x <;> simp [parseJSONL, ih]
  · intro rs
    induction rs with
    | nil => rfl
    | cons r rs ih => simp [parseJSONL, ih]

/-- C7: on the transcript `result: "Done."` (cost 0.02, duration 1500)
followed by an assistant message `ignored`, the extracted message is
exactly `Done.` (the result record wins), the execution details are
found, and the footer renders the duration as `1.50s` and the cost as
`$0.0200`. -/
theorem C7_result_precedence_and_formatting :
    extractClaudeMessage c7lines = "Done." ∧
    getExecutionDetails (some "/tmp/output.txt") "/tmp" fsC7 =
      some (cost002, dur1500) ∧
    executionFooter (some (some cost002, some dur1500)) =
      "\n\n---\n*Execution time: 1.50s | Estimated cost: $0.0200*" :=
  ⟨by decide, by decide, by decide⟩

/-- C2: the claim states that a post-cleanup status of exactly
`?? output.txt` and `?? /tmp/claude-output/x.json` is classified as no
substantive change and routed to the Response Poster.  Evaluating the
code at this input shows the opposite: the defensive filter has no rule
for the literal name `output.txt`, so the classifier reports a
substantive change and the update phase runs the Change Submitter. -/
theorem C2_output_txt_counted_substantive :
    checkGitStatus c2Status = true ∧
    (runUpdatePhase { success := true } { success := true } c2Update).2.ranSubmitter
      = true ∧
    (runUpdatePhase { success := true } { success := true } c2Update).2.ranPoster
      = false :=
  ⟨by decide, by decide, by decide⟩

/-- C3 counterexample: rerunning branch reconciliation while already
checked out on the target branch is not a no-op — the fetch into the
checked-out branch is refused, the fallback `git checkout -b` fails
because the branch already exists, and the step errors out. -/
theorem C3_rerun_counterexample :
    reconcileBranch
        { currentBranch := "claude-fix-1",
          localBranches := ["main", "claude-fix-1"],
          remoteBranches := ["main"] } "claude-fix-1" =
      Except.error "Failed to setup working branch" := rfl

/-- C3 amended: rerunning reconciliation with the same target branch on
an already-checked-out branch fails with the branch-setup error (it is
not an idempotent no-op); the post-condition half of the claim holds:
any successful reconciliation ends with the current branch equal to the
target, the verification step turning a mismatch into a fatal error. -/
theorem C3_reconciler_rerun_fails_postcondition_holds
    (s : GitState) (b : String) :
    (s.currentBranch = b → s.localBranches.contains b = true →
      reconcileBranch s b = Except.error "Failed to setup working branch") ∧
    (∀ s2 : GitState, reconcileBranch s b = Except.ok s2 →
      s2.currentBranch = b) := by
  constructor
  · intro h1 h2
    have h2m : b ∈ s.localBranches := by simpa using h2
    simp [reconcileBranch, setupBranch, gitFetchBranch, gitCheckoutNew,
      verifyBranch, h1, h2m]
  · intro s2 h
    rw [reconcileBranch] at h
    cases hs : setupBranch s b with
    | error e => rw [hs] at h; simp [verifyBranch] at h
    | ok s3 =>
      rw [hs] at h
      by_cases hc : s3.currentBranch = b
      · simp only [verifyBranch, if_pos hc] at h
        cases h; exact hc
      · simp only [verifyBranch, if_neg hc] at h
        exact Except.noConfusion h

/-- C3 witness: the amended theorem applied at concrete states — a
rerun on the already-checked-out branch `dev` errors, and the concrete
successful reconciliation onto `claude-fix-1` ends on that branch. -/
theorem C3_witness :
    reconcileBranch
        { currentBranch := "dev", localBranches := ["dev"],
          remoteBranches := [] } "dev" =
      Except.error "Failed to setup working branch" ∧
    ({ currentBranch := "claude-fix-1",
       localBranches := ["claude-fix-1", "main"],
       remoteBranches := ["main", "claude-fix-1"] } : GitState).currentBranch =
      "claude-fix-1" :=
  ⟨(C3_reconciler_rerun_fails_postcondition_holds
      { currentBranch := "dev", localBranches := ["dev"], remoteBranches := [] }
      "dev").1 rfl (by decide),
   (C3_reconciler_rerun_fails_postcondition_holds
      { currentBranch := "main", localBranches := ["main"],
        remoteBranches := ["main", "claude-fix-1"] } "claude-fix-1").2
     { currentBranch := "claude-fix-1",
       localBranches := ["claude-fix-1", "main"],
       remoteBranches := ["main", "claude-fix-1"] } rfl⟩

/-- C1: in every orchestrator run, an execute-phase failure after a
successful prepare still runs the update phase and exits non-zero; a
successful execute phase exits 0 regardless of the update phase; and a
prepare result of `No trigger found` exits 0 without running execute
or update. -/
theorem C1_orchestrator_exit_codes (env : SystemEnv) :
    ((runPreparePhase env.prepare).success = true →
      (runExecutePhase (runPreparePhase env.prepare) env.execute).success = false →
      (mainRun env).ranUpdate = true ∧ (mainRun env).exitCode ≠ 0) ∧
    ((runPreparePhase env.prepare).success = true →
      (runExecutePhase (runPreparePhase env.prepare) env.execute).success = true →
      (mainRun env).exitCode = 0) ∧
    ((runPreparePhase env.prepare).success = false →
      (runPreparePhase env.prepare).error = some "No trigger found" →
      (mainRun env).exitCode = 0 ∧ (mainRun env).ranExecute = false ∧
        (mainRun env).ranUpdate = false) := by
  refine ⟨fun h1 h2 => ?_, fun h1 h2 => ?_, fun h1 h2 => ?_⟩ <;>
    simp [mainRun, h1, h2]

/-- C1 witness: the theorem applied to the three concrete scenarios —
execute fails (update still runs, exit non-zero, even though the
update script fails too), execute succeeds while the update script
fails (exit 0), and a no-trigger prepare (exit 0, nothing else runs). -/
theorem C1_witness :
    ((mainRun c1Env).ranUpdate = true ∧ (mainRun c1Env).exitCode ≠ 0) ∧
    (mainRun c1OkEnv).exitCode = 0 ∧
    ((mainRun c1TrigEnv).exitCode = 0 ∧ (mainRun c1TrigEnv).ranExecute = false ∧
      (mainRun c1TrigEnv).ranUpdate = false) :=
  ⟨(C1_orchestrator_exit_codes c1Env).1 (by decide) (by decide),
   (C1_orchestrator_exit_codes c1OkEnv).2.1 (by decide) (by decide),
   (C1_orchestrator_exit_codes c1TrigEnv).2.2 (by decide) (by decide)⟩

/-- C4 counterexample: the claim says a repository-identity mismatch
during change classification must abort the phase.  At this input the
remote URL does not contain the expected project and a real
modification exists, yet the classifier returns `false` (benign "no
changes"), the update phase routes to the Response Poster and finishes
with a successful result. -/
theorem C4_counterexample :
    checkGitStatus c4Status = false ∧
    (runUpdatePhase { success := true } { success := true } c4Update).1 =
      { success := true } ∧
    (runUpdatePhase { success := true } { success := true } c4Update).2.ranPoster
      = true :=
  ⟨by decide, by decide, by decide⟩

/-- C4 amended: a repository-identity mismatch is fatal only in the
Change Submitter, where it throws and surfaces as a failed phase
result; the Change Classifier converts the same mismatch into
`hasChanges = false`, so the update phase routes to the Response
Poster instead of aborting. -/
theorem C4_mismatch_fatal_only_in_submitter (p url : String)
    (hmiss : jsIncludes url p = false) :
    (∀ env : StatusEnv, env.expectedProject = some p →
      env.remoteUrl = some url → checkGitStatus env = false) ∧
    (∀ env : SubmitEnv, env.expectedProject = some p →
      env.remoteUrl = some url → ∀ d, env.projectDir = some d →
      (createMergeRequest env).outcome =
        SubmitOutcome.fatal ("Wrong repository: " ++ url)) ∧
    (∀ (prep exec : PhaseResult) (env : UpdateEnv),
      env.status.expectedProject = some p → env.status.remoteUrl = some url →
      (runUpdatePhase prep exec env).2.ranSubmitter = false ∧
      (runUpdatePhase prep exec env).2.ranPoster = true) := by
  have key : ∀ env : StatusEnv, env.expectedProject = some p →
      env.remoteUrl = some url → checkGitStatus env = false := by
    intro env h1 h2
    cases hd : env.projectDir with
    | none => simp [checkGitStatus, hd]
    | some d => simp [checkGitStatus, hd, h1, h2, hmiss]
  refine ⟨key, ?_, ?_⟩
  · intro env h1 h2 d hd
    simp [createMergeRequest, hd, h1, h2, hmiss]
  · intro prep exec env h1 h2
    have h0 := key env.status h1 h2
    cases ht : jsNumberTruthy prep.commentId <;>
      cases hu : env.updateScriptExitZero <;>
        simp [runUpdatePhase, h0, ht, hu]

/-- C4 witness: the amended theorem applied at the concrete mismatch —
the submitter throws the wrong-repository error while the update phase
with the same mismatch runs the poster, not the submitter. -/
theorem C4_witness :
    (createMergeRequest c4Submit).outcome =
      SubmitOutcome.fatal
        ("Wrong repository: " ++ "https://gitlab.com/other/unrelated.git") ∧
    ((runUpdatePhase { success := true } { success := true }
        c4Update).2.ranSubmitter = false ∧
      (runUpdatePhase { success := true } { success := true }
        c4Update).2.ranPoster = true) :=
  have h := C4_mismatch_fatal_only_in_submitter "group/proj"
    "https://gitlab.com/other/unrelated.git" (by decide)
  ⟨h.2.1 c4Submit rfl rfl "/builds/group/proj" rfl,
   h.2.2 { success := true } { success := true } c4Update rfl rfl⟩

/-- C5 counterexample: the claim says that with zero candidates given
(no explicit override) the two well-known temp files are still tried.
At this input the well-known JSON file exists and is decodable — as the
second conjunct shows by reaching it through an absent override — yet
`getExecutionDetails` with no override returns the not-found outcome
without trying it. -/
theorem C5_counterexample :
    getExecutionDetails none "/tmp" fsWellKnown = none ∧
    getExecutionDetails (some "/absent/override") "/tmp" fsWellKnown =
      some (cost002, dur1500) :=
  ⟨by decide, by decide⟩

/-- C5 amended: when an explicit override path is provided the reader
tries the candidates in preference order — override, well-known JSON
temp file, well-known JSONL temp file — returns the content outcome of
the first existing candidate and a typed not-found outcome when none
exists, never throwing; but when the override is absent it returns the
not-found outcome immediately, and only the response poster still
tries the well-known temp files in that case. -/
theorem C5_reader_candidate_order :
    (∀ (tempDir : String) (fs : FS),
      getExecutionDetails none tempDir fs = none) ∧
    (∀ (f tempDir : String) (fs : FS) (c : FileContent),
      fs.read f = some c →
      getExecutionDetails (some f) tempDir fs = contentDetails c) ∧
    (∀ (f tempDir : String) (fs : FS) (c : FileContent),
      fs.read f = none →
      fs.read (tempDir ++ "/claude-execution-output.json") = some c →
      getExecutionDetails (some f) tempDir fs = contentDetails c) ∧
    (∀ (f tempDir : String) (fs : FS) (c : FileContent),
      fs.read f = none →
      fs.read (tempDir ++ "/claude-execution-output.json") = none →
      fs.read (tempDir ++ "/output.txt") = some c →
      getExecutionDetails (some f) tempDir fs = contentDetails c) ∧
    (∀ (f tempDir : String) (fs : FS),
      fs.read f = none →
      fs.read (tempDir ++ "/claude-execution-output.json") = none →
      fs.read (tempDir ++ "/output.txt") = none →
      getExecutionDetails (some f) tempDir fs = none) ∧
    (∀ (tempDir fallback : String) (fs : FS) (c : FileContent),
      fs.read (tempDir ++ "/claude-execution-output.json") = some c →
      firstExistingFile fs (posterCandidates none tempDir fallback) =
        some (tempDir ++ "/claude-execution-output.json")) := by
  refine ⟨fun tempDir fs => rfl, ?_, ?_, ?_, ?_, ?_⟩
  · intro f tempDir fs c h
    simp [getExecutionDetails, execDetailsCandidates, firstExistingContent, h]
  · intro f tempDir fs c h1 h2
    simp [getExecutionDetails, execDetailsCandidates, firstExistingContent,
      h1, h2]
  · intro f tempDir fs c h1 h2 h3
    simp [getExecutionDetails, execDetailsCandidates, firstExistingContent,
      h1, h2, h3]
  · intro f tempDir fs h1 h2 h3
    simp [getExecutionDetails, execDetailsCandidates, firstExistingContent,
      h1, h2, h3]
  · intro tempDir fallback fs c h
    simp [firstExistingFile, posterCandidates, firstExistingContent, h]

/-- C5 witness: the amended theorem applied at concrete filesystems —
the JSONL fallback is reached when override and JSON file are absent,
and the poster finds the well-known JSON file with no override. -/
theorem C5_witness :
    getExecutionDetails (some "/absent/override") "/tmp" fsC7 =
      contentDetails (FileContent.content (FileParse.notJson c7lines)) ∧
    firstExistingFile fsWellKnown
        (posterCandidates none "/tmp" "/tmp/claude-output/output.json") =
      some "/tmp/claude-execution-output.json" :=
  ⟨C5_reader_candidate_order.2.2.2.1 "/absent/override" "/tmp" fsC7
     (FileContent.content (FileParse.notJson c7lines))
     (by decide) (by decide) (by decide),
   C5_reader_candidate_order.2.2.2.2.2 "/tmp" "/tmp/claude-output/output.json"
     fsWellKnown (FileContent.content (FileParse.array [SDKRecord.result rrDone]))
     (by decide)⟩

/-- C6: whenever both the JSON-array file and the JSONL file exist in
the temp directory, every selection point — the execute-phase output
file selection, the update-phase fallback selection, and the response
poster candidate scan (whose override, when set at all, is the
execute-phase selection, hence the JSON path) — chooses the JSON-array
file and never the JSONL file. -/
theorem C6_json_array_file_preferred (tempDir fallback : String) (fs : FS)
    (ov : Option String)
    (hjson : fs.pathExists (tempDir ++ "/claude-execution-output.json") = true)
    (_htxt : fs.pathExists (tempDir ++ "/output.txt") = true)
    (hov : ov = none ∨ ov = some (tempDir ++ "/claude-execution-output.json")) :
    (∀ txtExists : Bool,
      executeOutputFileSelection true txtExists tempDir =
        tempDir ++ "/claude-execution-output.json") ∧
    updateOutputFileSelection ov tempDir fs =
      tempDir ++ "/claude-execution-output.json" ∧
    firstExistingFile fs (posterCandidates ov tempDir fallback) =
      some (tempDir ++ "/claude-execution-output.json") := by
  obtain ⟨c, hc⟩ := FS.read_of_pathExists fs _ hjson
  refine ⟨fun txtExists => rfl, ?_, ?_⟩
  · rcases hov with h | h <;>
      simp [updateOutputFileSelection, h, hjson]
  · rcases hov with h | h <;>
      simp [firstExistingFile, posterCandidates, firstExistingContent, h, hc]

/-- C6 witness: the theorem applied to a concrete filesystem holding
both output files, with no override. -/
theorem C6_witness :
    (∀ txtExists : Bool,
      executeOutputFileSelection true txtExists "/tmp" =
        "/tmp/claude-execution-output.json") ∧
    updateOutputFileSelection none "/tmp" fsBoth =
      "/tmp/claude-execution-output.json" ∧
    firstExistingFile fsBoth
        (posterCandidates none "/tmp" "/tmp/claude-output/output.json") =
      some "/tmp/claude-execution-output.json" :=
  C6_json_array_file_preferred "/tmp" "/tmp/claude-output/output.json" fsBoth
    none (by decide) (by decide) (Or.inl rfl)

/-- C8 counterexample: the claim says the submitter never reaches its
commit when the remaining staged set is empty.  At this input the
staged set is empty (the only line is the untracked `?? output.txt`),
yet the line passes the `validFiles` filter — which has no rule for
the literal name `output.txt` — so the submitter proceeds to
`git commit`, which fails rather than returning cleanly. -/
theorem C8_counterexample :
    stagedSetEmpty c8Submit.statusAfterFilter = true ∧
    (createMergeRequest c8Submit).reachedCommit = true ∧
    (createMergeRequest c8Submit).outcome =
      SubmitOutcome.fatal "git commit failed" :=
  ⟨by decide, by decide, by decide⟩

/-- C8 amended: after staging and noise unstaging (and with the
earlier identity and branch guards passed), the submitter returns
before `git commit` — with no error, and hence never pushes — exactly
when the re-inspected `git status --short` output is empty or every
one of its lines matches the noise filter; emptiness of the staged set
alone does not suffice. -/
theorem C8_empty_filtered_status_skips_commit (env : SubmitEnv)
    (dir url proj : String)
    (hdir : env.projectDir = some dir)
    (hurl : env.remoteUrl = some url)
    (hproj : env.expectedProject = some proj)
    (hincl : jsIncludes url proj = true)
    (hco : env.checkoutNewOk = true)
    (hbefore : ¬ jsTrim env.statusBefore = "") :
    ((createMergeRequest env).reachedCommit = false ↔
      (jsTrim env.statusAfterFilter = "" ∨
        ((splitNewlines (jsTrim env.statusAfterFilter)).filter
          validFileLine).isEmpty = true)) ∧
    ((createMergeRequest env).reachedCommit = false →
      (createMergeRequest env).reachedPush = false ∧
      ∃ r, (createMergeRequest env).outcome = SubmitOutcome.noop r) := by
  by_cases h1 : jsTrim env.statusAfterFilter = ""
  · have hrun : createMergeRequest env =
        ⟨SubmitOutcome.noop "No valid changes to commit after filtering temp files",
          false, false⟩ := by
      simp [createMergeRequest, hdir, hurl, hproj, hincl, hco, hbefore, h1]
    rw [hrun]
    exact ⟨by simp [h1], fun _ => ⟨rfl, _, rfl⟩⟩
  · by_cases h2 : ((splitNewlines (jsTrim env.statusAfterFilter)).filter
        validFileLine).isEmpty = true
    · have hrun : createMergeRequest env =
          ⟨SubmitOutcome.noop "No valid project files to commit", false, false⟩ := by
        simp [createMergeRequest, hdir, hurl, hproj, hincl, hco, hbefore, h1, h2]
      rw [hrun]
      exact ⟨by simp [h2], fun _ => ⟨rfl, _, rfl⟩⟩
    · have hreach : (createMergeRequest env).reachedCommit = true := by
        cases hcm : env.commitOk <;> cases hps : env.pushOk <;>
          simp [createMergeRequest, hdir, hurl, hproj, hincl, hco, hbefore,
            h1, h2, hcm, hps]
      rw [hreach]
      exact ⟨by simp [h1, h2], fun h => absurd h (by simp)⟩

/-- C8 witness: the amended theorem applied to a concrete submitter
environment whose post-filter status holds only noise lines — the
submitter returns before commit, without error and without pushing. -/
theorem C8_witness :
    (createMergeRequest c8NoopSubmit).reachedCommit = false ∧
    (createMergeRequest c8NoopSubmit).reachedPush = false ∧
    ∃ r, (createMergeRequest c8NoopSubmit).outcome = SubmitOutcome.noop r :=
  have h := C8_empty_filtered_status_skips_commit c8NoopSubmit
    "/builds/group/proj" "https://gitlab.com/group/proj.git" "group/proj"
    rfl rfl rfl (by decide) rfl (by decide)
  have hc : (createMergeRequest c8NoopSubmit).reachedCommit = false :=
    h.1.mpr (Or.inr (by decide))
  ⟨hc, (h.2 hc).1, (h.2 hc).2⟩

/-- C10 counterexample: the claim says that with no comment id the
update phase skips the comment edit and returns a successful result.
At this input the comment id is absent and the comment edit is indeed
skipped, but the submitter's push fails, so the phase returns a failed
result, refuting the unconditional success part of the claim. -/
theorem C10_counterexample :
    jsNumberTruthy ({ success := true } : PhaseResult).commentId = false ∧
    (runUpdatePhase { success := true } { success := true }
      c10Update).1.success = false ∧
    (runUpdatePhase { success := true } { success := true }
      c10Update).2.updateScriptInvoked = false :=
  ⟨by decide, by decide, by decide⟩

/-- C10 amended: whenever the prepare result carries no comment id
(`null`, `NaN` or `0`, which covers a persisted id file that is empty,
`0`, or non-numeric), the update phase never invokes the
update-comment script, and it returns a successful `PhaseResult`
provided the routed change-submission step did not throw. -/
theorem C10_no_comment_id_skips_comment_edit
    (prep exec : PhaseResult) (env : UpdateEnv)
    (hid : jsNumberTruthy prep.commentId = false) :
    (runUpdatePhase prep exec env).2.updateScriptInvoked = false ∧
    ((checkGitStatus env.status = true →
        ∀ e, (createMergeRequest env.submit).outcome ≠ SubmitOutcome.fatal e) →
      runUpdatePhase prep exec env =
        ({ success := true },
          ⟨checkGitStatus env.status, !checkGitStatus env.status, false, none⟩)) ∧
    jsNumberTruthy (readCommentId (some "0")) = false ∧
    jsNumberTruthy (readCommentId (some "abc")) = false ∧
    jsNumberTruthy (readCommentId (some " ")) = false ∧
    readCommentId none = none := by
  refine ⟨?_, ?_, by decide, by decide, by decide, rfl⟩
  · cases hch : checkGitStatus env.status with
    | false => simp [runUpdatePhase, hch, hid]
    | true =>
      cases hout : (createMergeRequest env.submit).outcome <;>
        simp [runUpdatePhase, hch, hout, hid]
  · intro hno
    cases hch : checkGitStatus env.status with
    | false => simp [runUpdatePhase, hch, hid]
    | true =>
      cases hout : (createMergeRequest env.submit).outcome with
      | fatal e => exact absurd hout (hno hch e)
      | noop r => simp [runUpdatePhase, hch, hout, hid]
      | success => simp [runUpdatePhase, hch, hout, hid]

/-- C10 witness: the amended theorem applied with a persisted id of
`0` (falsy) and a clean working tree — the comment edit is skipped and
the phase succeeds. -/
theorem C10_witness :
    (runUpdatePhase { success := true, commentId := some (JsNumber.int 0) }
      { success := true } idleUpdate).2.updateScriptInvoked = false ∧
    runUpdatePhase { success := true, commentId := some (JsNumber.int 0) }
        { success := true } idleUpdate =
      ({ success := true },
        ⟨checkGitStatus idleUpdate.status, !checkGitStatus idleUpdate.status,
          false, none⟩) :=
  have h := C10_no_comment_id_skips_comment_edit
    { success := true, commentId := some (JsNumber.int 0) }
    { success := true } idleUpdate (by decide)
  ⟨h.1, h.2.1 (fun hch => absurd hch (by decide))⟩

end ClaudeAI
